import Mathlib

/-!
# PayAid WhatsApp module — verification of the messaging core

Shallow embedding of the messaging orchestration code of the
`payaid-whatsapp` repository: the webhook ingestion routes, the outbound
send route, the session lifecycle routes and the account routes, together
with the persistent rows they read and write.  Each route handler is
translated into a pure Lean function from an explicit store (the database
rows) and the request inputs to a response and an updated store.  Network
calls to the bridge provider are passed in as explicit outcome values.
Times are modelled as natural numbers (milliseconds); JavaScript `Date`
construction `new Date(t * 1000)` becomes `t * 1000` and `new Date()`
becomes an explicit `now` parameter.
-/

namespace PayAidWA

/-! ## JavaScript value semantics helpers

Optional string fields model JS values that may be `undefined`/`null`
(`none`) or a string; the empty string is falsy, like in JS. -/

/-- JS truthiness of an optional string: `null`/`undefined` and `""` are falsy. -/
def truthy : Option String → Bool
  | none => false
  | some s => s ≠ ""

/-- JS `a || b` for an optional string with a string default. -/
def jsOrS (a : Option String) (b : String) : String :=
  match a with
  | some s => if s = "" then b else s
  | none => b

/-- JS `a || b` chaining two optional strings into an optional result. -/
def jsOrO (a b : Option String) : Option String :=
  if truthy a then a else b

/-- JS `timestamp ? new Date(timestamp * 1000) : new Date()`:
a missing or zero (falsy) unix-seconds timestamp falls back to `now`. -/
def jsDate (t : Option Nat) (now : Nat) : Nat :=
  match t with
  | some n => if n = 0 then now else n * 1000
  | none => now

/-- JS `String.prototype.toUpperCase()` on the ASCII vocabulary the routes
compare against (character-wise uppercasing). -/
def strUpper (s : String) : String := String.mk (s.data.map Char.toUpper)

/-! ## Data model (rows of the persistent store) -/

/-- A `whatsappMessage` row. -/
structure WhatsappMessage where
  id : String
  conversationId : String
  sessionId : String
  employeeId : Option String := none
  direction : String
  messageType : String
  whatsappMessageId : String
  fromNumber : String
  toNumber : String
  text : Option String := none
  mediaUrl : Option String := none
  mediaMimeType : Option String := none
  mediaCaption : Option String := none
  templateId : Option String := none
  status : String
  errorCode : Option String := none
  errorMessage : Option String := none
  sentAt : Option Nat := none
  deliveredAt : Option Nat := none
  readAt : Option Nat := none
  createdAt : Nat := 0
  deriving Repr, DecidableEq

/-- A `whatsappSession` row. -/
structure WhatsappSession where
  id : String
  accountId : String
  employeeId : Option String := none
  providerSessionId : Option String := none
  qrCodeUrl : Option String := none
  status : String
  deviceName : String := "Device"
  phoneNumber : Option String := none
  isActive : Bool := true
  dailySentCount : Nat := 0
  dailyRecvCount : Nat := 0
  lastSyncAt : Option Nat := none
  lastSeenAt : Option Nat := none
  deriving Repr, DecidableEq

/-- A `whatsappAccount` row, secret credential fields included. -/
structure WhatsappAccount where
  id : String
  tenantId : String
  deploymentType : String := "self_hosted"
  channelType : String := "web"
  wahaBaseUrl : Option String := none
  wahaApiKey : Option String := none
  internalWahaUrl : Option String := none
  internalApiKey : Option String := none
  accessToken : Option String := none
  metaAppSecret : Option String := none
  businessName : Option String := none
  primaryPhone : Option String := none
  isWebConnected : Bool := false
  status : String := "pending"
  errorMessage : Option String := none
  deriving Repr, DecidableEq

/-- A core-CRM `contact` row (the fields this module writes). -/
structure Contact where
  id : String
  tenantId : String
  name : String
  email : String := ""
  phone : String
  type : String := "lead"
  status : String := "active"
  source : String := "whatsapp"
  deriving Repr, DecidableEq

/-- A `whatsappContactIdentity` row; `whatsappNumber` is unique at the store
(the route reads it with `findUnique({ where: { whatsappNumber } })`, which
Prisma generates only for a unique field). -/
structure WhatsappContactIdentity where
  contactId : String
  whatsappNumber : String
  verified : Bool := true
  verificationDate : Option Nat := none
  deriving Repr, DecidableEq

/-- A `whatsappConversation` row; `(accountId, contactId)` is a compound
unique key at the store (the route reads it with
`findUnique({ where: { accountId_contactId } })`). -/
structure WhatsappConversation where
  id : String
  accountId : String
  contactId : String
  sessionId : Option String := none
  status : String := "open"
  lastMessageAt : Option Nat := none
  lastDirection : Option String := none
  unreadCount : Nat := 0
  ticketId : Option String := none
  deriving Repr, DecidableEq

/-- A `whatsappTemplate` row (the fields the send and template routes use). -/
structure WhatsappTemplate where
  id : String
  accountId : String
  name : String
  category : String := "custom"
  languageCode : String := "en"
  bodyTemplate : String
  createdById : Option String := none
  deriving Repr, DecidableEq

/-- A `whatsappAuditLog` row (the fields the routes write). -/
structure WhatsappAuditLog where
  accountId : String
  sessionId : Option String := none
  action : String
  status : String
  description : Option String := none
  errorCode : Option String := none
  errorMessage : Option String := none
  userId : Option String := none
  deriving Repr, DecidableEq

/-- The persistent store: the rows the embedded routes read and write. -/
structure Store where
  accounts : List WhatsappAccount := []
  sessions : List WhatsappSession := []
  contacts : List Contact := []
  identities : List WhatsappContactIdentity := []
  conversations : List WhatsappConversation := []
  messages : List WhatsappMessage := []
  templates : List WhatsappTemplate := []
  auditLog : List WhatsappAuditLog := []
  deriving Repr, DecidableEq

/-- An HTTP response: `ok` is a 2xx JSON body (kept abstract per route),
`error` is `NextResponse.json({ error }, { status })`. -/
inductive ApiResp where
  | ok (status : Nat)
  | error (status : Nat) (msg : String)
  deriving Repr, DecidableEq

/-! ## Status webhook — POST /api/whatsapp/webhooks/status -/

/-- Body `data` of the status webhook. -/
structure StatusData where
  id : Option String := none
  status : Option String := none
  timestamp : Option Nat := none
  deriving Repr, DecidableEq

/-- The status-mapping core of `POST /api/whatsapp/webhooks/status`:
starting from the stored message's `status`/`deliveredAt`/`readAt`, the
route uppercases the provider status, maps `DELIVERED`/`ACK` to
`delivered` (setting `deliveredAt` only if not already set), `READ` to
`read` (always overwriting `readAt`), `FAILED`/`ERROR` to `failed`, and
leaves everything unchanged otherwise; the row is then written back. -/
def applyStatusUpdate (message : WhatsappMessage) (wahaStatus : Option String)
    (timestamp : Option Nat) (now : Nat) : WhatsappMessage :=
  let statusUpper := strUpper (jsOrS wahaStatus "")
  if statusUpper = "DELIVERED" ∨ statusUpper = "ACK" then
    { message with
        status := "delivered",
        deliveredAt :=
          match message.deliveredAt with
          | some d => some d
          | none => some (jsDate timestamp now) }
  else if statusUpper = "READ" then
    { message with status := "read", readAt := some (jsDate timestamp now) }
  else if statusUpper = "FAILED" ∨ statusUpper = "ERROR" then
    { message with status := "failed" }
  else
    message

/-- `POST /api/whatsapp/webhooks/status`: validates the payload, finds the
message by `whatsappMessageId`, applies `applyStatusUpdate` and writes the
row back. -/
def statusWebhookPOST (store : Store) (instV : Option String)
    (dataV : Option StatusData) (now : Nat) : ApiResp × Store :=
  if ¬ truthy instV then (.error 400 "Invalid webhook payload", store) else
  match dataV with
  | none => (.error 400 "Invalid webhook payload", store)
  | some data =>
    if ¬ truthy data.id then (.error 400 "Missing message ID", store) else
    let wmid := jsOrS data.id ""
    match store.messages.find? (fun m => m.whatsappMessageId = wmid) with
    | none => (.error 404 "Message not found", store)
    | some message =>
      let updated := applyStatusUpdate message data.status data.timestamp now
      (.ok 200,
       { store with
           messages := store.messages.map (fun m => if m.id = message.id then updated else m) })

/-! ## Store lookups (Prisma `findUnique` / `findFirst` over the row lists) -/

/-- `prisma.whatsappAccount.findUnique({ where: { id } })`. -/
def findAccountById (store : Store) (id : String) : Option WhatsappAccount :=
  store.accounts.find? (fun a => a.id == id)

/-- `prisma.whatsappSession.findUnique({ where: { id } })`. -/
def findSessionById (store : Store) (id : String) : Option WhatsappSession :=
  store.sessions.find? (fun s => s.id == id)

/-- `prisma.whatsappConversation.findUnique({ where: { id } })`. -/
def findConversationById (store : Store) (id : String) : Option WhatsappConversation :=
  store.conversations.find? (fun c => c.id == id)

/-- `prisma.whatsappTemplate.findUnique({ where: { id } })`. -/
def findTemplateById (store : Store) (id : String) : Option WhatsappTemplate :=
  store.templates.find? (fun t => t.id == id)

/-- `prisma.whatsappContactIdentity.findFirst({ where: { contactId } })`. -/
def findIdentityByContactId (store : Store) (contactId : String) :
    Option WhatsappContactIdentity :=
  store.identities.find? (fun i => i.contactId == contactId)

/-- `prisma.whatsappContactIdentity.findUnique({ where: { whatsappNumber } })`. -/
def findIdentityByNumber (store : Store) (number : String) :
    Option WhatsappContactIdentity :=
  store.identities.find? (fun i => i.whatsappNumber == number)

/-- `prisma.whatsappSession.findFirst({ where: { accountId, status: 'connected',
isActive: true } })` from the send route. -/
def firstConnectedSession (store : Store) (accountId : String) : Option WhatsappSession :=
  store.sessions.find?
    (fun s => s.accountId == accountId && s.status == "connected" && s.isActive)

/-! ## Outbound send — POST /api/whatsapp/messages/send -/

/-- The parsed `sendMessageSchema` body: `conversationId` required (min 1),
`text`/`mediaUrl`/`templateId` all optional. -/
structure SendPayload where
  conversationId : String
  text : Option String := none
  mediaUrl : Option String := none
  templateId : Option String := none
  deriving Repr, DecidableEq

/-- The JSON body posted to the provider's messages endpoint, by shape:
`{to, body}` from `text`, `{to, media:{url}}` from `mediaUrl`,
`{to, body: template.bodyTemplate}` from `templateId`, or bare `{to}` when
no branch of the build fires. -/
inductive WahaSendBody where
  | textBody (dest body : String)
  | mediaBody (dest url : String)
  | templateBody (dest body : String)
  | bare (dest : String)
  deriving Repr, DecidableEq

/-- The send route's payload build (`if (validated.text) ... else if
(validated.mediaUrl) ... else if (validated.templateId) ...`): `text` wins
over `mediaUrl`, which wins over `templateId`; `template` is the row the
route resolved when the template branch is live. -/
def buildSendPayload (payload : SendPayload) (toNumber : String)
    (template : Option WhatsappTemplate) : WahaSendBody :=
  if truthy payload.text then .textBody toNumber (jsOrS payload.text "")
  else if truthy payload.mediaUrl then .mediaBody toNumber (jsOrS payload.mediaUrl "")
  else if truthy payload.templateId then
    match template with
    | some t => .templateBody toNumber t.bodyTemplate
    | none => .bare toNumber
  else .bare toNumber

/-- `validated.templateId ? 'template' : validated.mediaUrl ? 'image' : 'text'`. -/
def sendMessageType (payload : SendPayload) : String :=
  if truthy payload.templateId then "template"
  else if truthy payload.mediaUrl then "image"
  else "text"

/-- Everything the send route has in hand when it reaches the provider
call: all validations have passed. -/
structure SendPrep where
  conversation : WhatsappConversation
  account : WhatsappAccount
  session : WhatsappSession
  toNumber : String
  fromNumber : String
  template : Option WhatsappTemplate := none
  wahaBody : WahaSendBody
  deriving Repr, DecidableEq

/-- Outcome of the provider send call (`axios.post .../messages`):
on success the response carries optional `messageId` and `id` fields; on
failure an optional HTTP status, an optional `response.data.message`, and
the error's own `message` string. -/
inductive ProviderSendResult where
  | ok (messageId : Option String) (idField : Option String)
  | fail (respStatus : Option Nat) (respDataMessage : Option String) (errMessage : String)
  deriving Repr, DecidableEq

/-- The session the send route uses: `conversation.session` (the bound
session, whatever its status) and only when none is bound,
the first connected active session on the account. -/
def resolveSendSession (store : Store) (conversation : WhatsappConversation) :
    Option WhatsappSession :=
  match conversation.sessionId.bind (findSessionById store) with
  | some s => some s
  | none => firstConnectedSession store conversation.accountId

/-- The send route's pipeline up to (and including) template resolution —
every early return before the provider call, in source order: schema
parse, the "at least one of text/mediaUrl/templateId" check, conversation
lookup, tenant ownership, session resolution, contact identity, session
phone number, WAHA configuration, template lookup.  Errors carry the HTTP
status and the `error` field of the JSON response. -/
def sendPrep (store : Store) (tenantId : String) (payload : SendPayload) :
    Except (Nat × String) SendPrep :=
  if payload.conversationId = "" then .error (400, "Validation error") else
  if !truthy payload.text && !truthy payload.mediaUrl && !truthy payload.templateId then
    .error (400, "text, mediaUrl, or templateId required") else
  match findConversationById store payload.conversationId with
  | none => .error (404, "Conversation not found")
  | some conversation =>
    -- `include: { account: true }` on a required relation; a dangling
    -- accountId cannot occur under the schema's foreign key.
    match findAccountById store conversation.accountId with
    | none => .error (404, "Conversation not found")
    | some account =>
      if account.tenantId ≠ tenantId then .error (403, "Unauthorized") else
      match resolveSendSession store conversation with
      | none => .error (400, "No active WhatsApp session")
      | some session =>
        match findIdentityByContactId store conversation.contactId with
        | none => .error (400, "Contact has no WhatsApp number")
        | some identity =>
          if !truthy session.phoneNumber then
            .error (400, "Session phone number not available") else
          if !truthy account.wahaBaseUrl || !truthy account.wahaApiKey then
            .error (400, "WAHA configuration incomplete") else
          let toNumber := identity.whatsappNumber
          let fromNumber := jsOrS session.phoneNumber ""
          if truthy payload.templateId && !truthy payload.text && !truthy payload.mediaUrl then
            match findTemplateById store (jsOrS payload.templateId "") with
            | none => .error (404, "Template not found")
            | some t =>
              .ok { conversation, account, session, toNumber, fromNumber,
                    template := some t,
                    wahaBody := buildSendPayload payload toNumber (some t) }
          else
            .ok { conversation, account, session, toNumber, fromNumber,
                  template := none,
                  wahaBody := buildSendPayload payload toNumber none }

/-- `error.response?.status?.toString() || 'UNKNOWN'`. -/
def sendErrorCode : Option Nat → String
  | some n => toString n
  | none => "UNKNOWN"

/-- `error.response?.data?.message || error.message || 'Failed to send message'`. -/
def sendErrorMessage (respDataMessage : Option String) (errMessage : String) : String :=
  jsOrS respDataMessage (jsOrS (some errMessage) "Failed to send message")

/-- The `whatsappMessage` row the send route writes, for either provider
outcome (`sent` on success, `failed` with error detail on failure). -/
def outMessage (payload : SendPayload) (prep : SendPrep) (provider : ProviderSendResult)
    (now : Nat) (userId : String) (newId : String) : WhatsappMessage :=
  let base : WhatsappMessage :=
    { id := newId, conversationId := payload.conversationId, sessionId := prep.session.id,
      employeeId := some userId, direction := "out",
      messageType := sendMessageType payload,
      whatsappMessageId := "", fromNumber := prep.fromNumber, toNumber := prep.toNumber,
      text := if truthy payload.text then payload.text else none,
      mediaUrl := if truthy payload.mediaUrl then payload.mediaUrl else none,
      templateId := if truthy payload.templateId then payload.templateId else none,
      status := "sent", sentAt := some now, createdAt := now }
  match provider with
  | .ok messageId idField =>
      { base with whatsappMessageId := jsOrS messageId (jsOrS idField "") }
  | .fail respStatus respDataMessage errMessage =>
      { base with
          status := "failed",
          errorCode := some (sendErrorCode respStatus),
          errorMessage := some (sendErrorMessage respDataMessage errMessage) }

/-- Response of the send route: `201` with the created row, or an error
JSON with its HTTP status. -/
inductive SendResp where
  | created (message : WhatsappMessage)
  | failed (status : Nat) (msg : String)
  deriving Repr, DecidableEq

/-- `POST /api/whatsapp/messages/send`: prep (all validations), provider
call, then — regardless of the provider outcome — message create,
conversation `lastMessageAt`/`lastDirection` update, session
`dailySentCount` increment, and the audit write.  `auditOk = false` models
the audit insert throwing, which lands in the route's outer catch. -/
def sendMessagePOST (store : Store) (tenantId userId : String) (payload : SendPayload)
    (provider : ProviderSendResult) (now : Nat) (auditOk : Bool) : SendResp × Store :=
  match sendPrep store tenantId payload with
  | .error e => (.failed e.1 e.2, store)
  | .ok prep =>
    let m := outMessage payload prep provider now userId
      ("msg-" ++ toString store.messages.length)
    let store1 : Store := { store with messages := store.messages ++ [m] }
    let store2 : Store :=
      { store1 with
          conversations := store1.conversations.map
            (fun c => if c.id == payload.conversationId then
                { c with lastMessageAt := some now, lastDirection := some "out" }
              else c) }
    let store3 : Store :=
      { store2 with
          sessions := store2.sessions.map
            (fun s => if s.id == prep.session.id then
                { s with dailySentCount := s.dailySentCount + 1, lastSeenAt := some now }
              else s) }
    if auditOk then
      (.created m,
       { store3 with
           auditLog := store3.auditLog ++
             [{ accountId := prep.conversation.accountId, sessionId := some prep.session.id,
                action := "message_send",
                status := if m.status == "failed" then "failure" else "success",
                errorCode := m.errorCode, errorMessage := m.errorMessage,
                userId := some userId }] })
    else
      (.failed 500 "Failed to send message", store3)

/-! ## Theorems for claim C1 (status-update monotonicity) -/

/-- A match-elimination helper for optional timestamps. -/
theorem optMatchGetD (o : Option Nat) (d : Nat) :
    (match o with | some x => some x | none => some d) = some (o.getD d) := by
  cases o <;> rfl

/-- A stored message already in status `read`, used to refute claim C1. -/
def c1Msg : WhatsappMessage :=
  { id := "m1", conversationId := "cv1", sessionId := "s1", direction := "out",
    messageType := "text", whatsappMessageId := "wm1", fromNumber := "+15550001",
    toNumber := "+15550002", status := "read", readAt := some 1700000000000 }

/-- A store holding only `c1Msg`. -/
def c1Store : Store := { messages := [c1Msg] }

/-- C1 counterexample: the claim says that once a message is `read`, a later
`DELIVERED` status webhook leaves it `read`; but on a store holding a
message in status `read`, processing a `DELIVERED` webhook for that message
sets its status to `delivered`, not `read`. -/
theorem c1_read_reverted_by_delivered_counterexample :
    ((statusWebhookPOST c1Store (some "waha-1")
        (some { id := some "wm1", status := some "DELIVERED", timestamp := some 1700000100 })
        0).2.messages.map (fun m => m.status) = ["delivered"])
    ∧ ("delivered" : String) ≠ "read" :=
  ⟨rfl, by decide⟩

/-- C1 (amended): the status webhook sets `deliveredAt` only on the first
delivered event (an existing `deliveredAt` is kept) and updates `readAt` to
the latest read event's time, and unrecognized statuses leave the message
unchanged; but `status` itself is not monotonic: every recognized event
overwrites it regardless of the current value — a `DELIVERED` event always
sets `status = delivered` (even after `read` or `failed`), a `READ` event
always sets `status = read`, and a `FAILED` event always sets
`status = failed`. -/
theorem c1_amended_status_update (m : WhatsappMessage) (ts : Option Nat) (now : Nat) :
    ((applyStatusUpdate m (some "DELIVERED") ts now).status = "delivered"
      ∧ (applyStatusUpdate m (some "DELIVERED") ts now).deliveredAt
          = some (m.deliveredAt.getD (jsDate ts now))
      ∧ (applyStatusUpdate m (some "DELIVERED") ts now).readAt = m.readAt)
    ∧ ((applyStatusUpdate m (some "READ") ts now).status = "read"
      ∧ (applyStatusUpdate m (some "READ") ts now).readAt = some (jsDate ts now)
      ∧ (applyStatusUpdate m (some "READ") ts now).deliveredAt = m.deliveredAt)
    ∧ ((applyStatusUpdate m (some "FAILED") ts now).status = "failed"
      ∧ (applyStatusUpdate m (some "FAILED") ts now).readAt = m.readAt
      ∧ (applyStatusUpdate m (some "FAILED") ts now).deliveredAt = m.deliveredAt)
    ∧ applyStatusUpdate m (some "PLAYED") ts now = m :=
  ⟨⟨rfl, optMatchGetD m.deliveredAt _, rfl⟩, ⟨rfl, rfl, rfl⟩, ⟨rfl, rfl, rfl⟩, rfl⟩

/-! ## Theorems for claims C2–C4 (outbound send) -/

/-- Whether a send response is the 201 created response. -/
def isCreated : SendResp → Bool
  | .created _ => true
  | .failed _ _ => false

/-- Fixture account with complete WAHA configuration. -/
def fixAccount : WhatsappAccount :=
  { id := "a1", tenantId := "t1", wahaBaseUrl := some "http://waha.local",
    wahaApiKey := some "key-1" }

/-- Fixture connected session on the fixture account. -/
def fixConnSession : WhatsappSession :=
  { id := "s-conn", accountId := "a1", providerSessionId := some "inst-1",
    status := "connected", phoneNumber := some "+15550100" }

/-- Fixture contact identity. -/
def fixIdentity : WhatsappContactIdentity :=
  { contactId := "ct1", whatsappNumber := "+15550200" }

/-- Fixture conversation with no bound session. -/
def fixConv : WhatsappConversation :=
  { id := "cv1", accountId := "a1", contactId := "ct1" }

/-- Fixture store: one account, one connected session, one identity, one
conversation with no bound session. -/
def fixStore : Store :=
  { accounts := [fixAccount], sessions := [fixConnSession],
    identities := [fixIdentity], conversations := [fixConv] }

/-- Store differing from `fixStore` only in having no session rows at all. -/
def noSessStore : Store :=
  { accounts := [fixAccount], sessions := [],
    identities := [fixIdentity], conversations := [fixConv] }

/-- A disconnected session used to refute claim C2. -/
def c2DiscSession : WhatsappSession :=
  { id := "s-disc", accountId := "a1", providerSessionId := some "inst-2",
    status := "disconnected", phoneNumber := some "+15550300" }

/-- A conversation bound to the disconnected session. -/
def c2Conv : WhatsappConversation :=
  { id := "cv2", accountId := "a1", contactId := "ct1", sessionId := some "s-disc" }

/-- Store for the C2 counterexample: zero connected sessions, but the
conversation is bound to a disconnected session. -/
def c2Store : Store :=
  { accounts := [fixAccount], sessions := [c2DiscSession],
    identities := [fixIdentity], conversations := [c2Conv] }

/-- C2 counterexample: on an account with zero connected sessions whose
conversation is bound to a disconnected session, the send neither fails
with the no-active-session error nor creates zero Message rows — it
proceeds on the disconnected bound session and records one row, because
the route never checks the bound session's status. -/
theorem c2_bound_disconnected_session_counterexample :
    (c2Store.sessions.filter (fun s => s.status == "connected") = [])
    ∧ ((sendMessagePOST c2Store "t1" "u1" { conversationId := "cv2", text := some "hi" }
          (.ok (some "wm-20") none) 50 true).2.messages.map (fun m => m.sessionId)
        = ["s-disc"])
    ∧ ((sendMessagePOST c2Store "t1" "u1" { conversationId := "cv2", text := some "hi" }
          (.ok (some "wm-20") none) 50 true).1
        ≠ SendResp.failed 400 "No active WhatsApp session") := by
  refine ⟨rfl, rfl, ?_⟩
  decide

/-- C2 (amended): the send uses the conversation's bound session whenever
one is bound, regardless of that session's connection status; only when no
session is bound does it fall back to the first connected active session
on the account; every pre-provider failure — in particular
(400, "No active WhatsApp session") when neither a bound nor a connected
session exists — leaves the store unchanged, so no Message row is created. -/
theorem c2_amended_session_resolution (store : Store) (conv : WhatsappConversation)
    (tenant uid : String) (payload : SendPayload) (provider : ProviderSendResult)
    (now : Nat) :
    (∀ sid s, conv.sessionId = some sid → findSessionById store sid = some s →
        resolveSendSession store conv = some s)
    ∧ (conv.sessionId = none →
        resolveSendSession store conv = firstConnectedSession store conv.accountId)
    ∧ (∀ prep, sendPrep store tenant payload = Except.ok prep →
        resolveSendSession store prep.conversation = some prep.session)
    ∧ (∀ st msg, sendPrep store tenant payload = Except.error (st, msg) →
        sendMessagePOST store tenant uid payload provider now true
          = (.failed st msg, store)) := by
  refine ⟨?_, ?_, ?_, ?_⟩
  · intro sid s h1 h2
    simp [resolveSendSession, h1, h2]
  · intro h
    simp [resolveSendSession, h]
  · intro prep h
    unfold sendPrep at h
    repeat' split at h
    all_goals try simp_all
    all_goals (cases h; simp_all)
  · intro st msg h
    simp [sendMessagePOST, h]

/-- Witness for `c2_amended_session_resolution`: the bound disconnected
session is the one resolved, and with neither bound nor connected session
the send fails with the no-active-session error leaving the store as it
was. -/
theorem c2_amended_session_resolution_witness :
    resolveSendSession c2Store c2Conv = some c2DiscSession
    ∧ sendMessagePOST noSessStore "t1" "u1" { conversationId := "cv1", text := some "hi" }
        (.ok none none) 1 true
        = (.failed 400 "No active WhatsApp session", noSessStore) :=
  ⟨(c2_amended_session_resolution c2Store c2Conv "t1" "u1"
      { conversationId := "cv2", text := some "hi" } (.ok none none) 1).1
      "s-disc" c2DiscSession rfl rfl,
   (c2_amended_session_resolution noSessStore fixConv "t1" "u1"
      { conversationId := "cv1", text := some "hi" } (.ok none none) 1).2.2.2
      400 "No active WhatsApp session" rfl⟩

/-- Payload used for the C3 witness. -/
def c3Payload : SendPayload := { conversationId := "cv1", text := some "hello" }

/-- The prep state `sendPrep` computes on `fixStore` for `c3Payload`. -/
def c3Prep : SendPrep :=
  { conversation := fixConv, account := fixAccount, session := fixConnSession,
    toNumber := "+15550200", fromNumber := "+15550100", template := none,
    wahaBody := .textBody "+15550200" "hello" }

/-- C3: once the pipeline reaches the provider call (all validations
passed), exactly one Message row is appended whatever the provider
outcome; on provider failure the row has status `failed` and carries the
provider error code and message, and the route still answers with the
created row (201) rather than an error. -/
theorem c3_send_always_records_message (store : Store) (tenant uid : String)
    (payload : SendPayload) (provider : ProviderSendResult) (now : Nat)
    (prep : SendPrep) (h : sendPrep store tenant payload = Except.ok prep) :
    ∃ m, (sendMessagePOST store tenant uid payload provider now true).1
          = SendResp.created m
      ∧ (sendMessagePOST store tenant uid payload provider now true).2.messages
          = store.messages ++ [m]
      ∧ (∀ st pm em, provider = .fail st pm em →
            m.status = "failed"
            ∧ m.errorCode = some (sendErrorCode st)
            ∧ m.errorMessage = some (sendErrorMessage pm em))
      ∧ (∀ a b, provider = .ok a b → m.status = "sent") := by
  refine ⟨outMessage payload prep provider now uid
      ("msg-" ++ toString store.messages.length), ?_, ?_, ?_, ?_⟩
  · simp [sendMessagePOST, h]
  · simp [sendMessagePOST, h]
  · intro st pm em hp
    subst hp
    exact ⟨rfl, rfl, rfl⟩
  · intro a b hp
    subst hp
    rfl

/-- Witness for `c3_send_always_records_message` on a failing provider
call against the fixture store. -/
theorem c3_send_always_records_message_witness :
    ∃ m, (sendMessagePOST fixStore "t1" "u1" c3Payload
            (.fail (some 500) none "connect ECONNREFUSED") 9 true).1
          = SendResp.created m
      ∧ (sendMessagePOST fixStore "t1" "u1" c3Payload
            (.fail (some 500) none "connect ECONNREFUSED") 9 true).2.messages
          = fixStore.messages ++ [m]
      ∧ (∀ st pm em,
            (ProviderSendResult.fail (some 500) none "connect ECONNREFUSED"
              = .fail st pm em) →
            m.status = "failed"
            ∧ m.errorCode = some (sendErrorCode st)
            ∧ m.errorMessage = some (sendErrorMessage pm em))
      ∧ (∀ a b,
            (ProviderSendResult.fail (some 500) none "connect ECONNREFUSED" = .ok a b) →
            m.status = "sent") :=
  c3_send_always_records_message fixStore "t1" "u1" c3Payload
    (.fail (some 500) none "connect ECONNREFUSED") 9 c3Prep rfl

/-- Payload with two of the three variant fields populated. -/
def c4Payload : SendPayload :=
  { conversationId := "cv1", text := some "hi", templateId := some "tp1" }

/-- C4 counterexample: a payload with both `text` and `templateId`
populated is not rejected — the send proceeds and answers 201. -/
theorem c4_multiple_populated_not_rejected_counterexample :
    truthy c4Payload.text = true ∧ truthy c4Payload.templateId = true
    ∧ isCreated (sendMessagePOST fixStore "t1" "u1" c4Payload
        (.ok (some "wm-4") none) 11 true).1 = true :=
  ⟨rfl, rfl, rfl⟩

/-- C4 (amended): the send rejects the payload with
(400, "text, mediaUrl, or templateId required") only when none of
`text`/`mediaUrl`/`templateId` is populated (leaving the store unchanged);
when several are populated it is not rejected — the provider body is built
by precedence: `text` first, then `mediaUrl`, then `templateId`. -/
theorem c4_amended_payload_validation (store : Store) (tenant uid : String)
    (payload : SendPayload) (provider : ProviderSendResult) (now : Nat) :
    (truthy payload.text = false → truthy payload.mediaUrl = false →
      truthy payload.templateId = false → payload.conversationId ≠ "" →
      sendMessagePOST store tenant uid payload provider now true
        = (.failed 400 "text, mediaUrl, or templateId required", store))
    ∧ (∀ dest tmpl, truthy payload.text = true →
        buildSendPayload payload dest tmpl = .textBody dest (jsOrS payload.text ""))
    ∧ (∀ dest tmpl, truthy payload.text = false → truthy payload.mediaUrl = true →
        buildSendPayload payload dest tmpl = .mediaBody dest (jsOrS payload.mediaUrl ""))
    ∧ (∀ dest t, truthy payload.text = false → truthy payload.mediaUrl = false →
        truthy payload.templateId = true →
        buildSendPayload payload dest (some t) = .templateBody dest t.bodyTemplate) := by
  refine ⟨?_, ?_, ?_, ?_⟩
  · intro h1 h2 h3 h4
    simp [sendMessagePOST, sendPrep, h1, h2, h3, h4]
  · intro dest tmpl h
    simp [buildSendPayload, h]
  · intro dest tmpl h1 h2
    simp [buildSendPayload, h1, h2]
  · intro dest t h1 h2 h3
    simp [buildSendPayload, h1, h2, h3]

/-- Witness for `c4_amended_payload_validation`: the all-empty payload is
rejected with the store untouched, and `text` wins the build when several
fields are populated. -/
theorem c4_amended_payload_validation_witness :
    sendMessagePOST fixStore "t1" "u1" { conversationId := "cv1" } (.ok none none) 3 true
        = (.failed 400 "text, mediaUrl, or templateId required", fixStore)
    ∧ buildSendPayload c4Payload "+15550200" none = .textBody "+15550200" "hi" :=
  ⟨(c4_amended_payload_validation fixStore "t1" "u1" { conversationId := "cv1" }
      (.ok none none) 3).1 rfl rfl rfl (by decide),
   (c4_amended_payload_validation fixStore "t1" "u1" c4Payload
      (.ok none none) 3).2.1 "+15550200" none rfl⟩

/-! ## Session status poll — GET /api/whatsapp/sessions/status/[sessionId] -/

/-- Outcome of the provider status call: a response with optional `state`,
`status`, `me.user` and `phoneNumber` fields, or the call throwing
(timeout / unreachable provider). -/
inductive ProviderStatusResult where
  | ok (state : Option String) (statusField : Option String)
      (meUser : Option String) (phoneNumber : Option String)
  | unreachable
  deriving Repr, DecidableEq

/-- The session-status route's state mapping:
`wahaState === 'CONNECTED' || wahaState === 'connected' ? 'connected'
: 'pending_qr'` — two exact literals, everything else `pending_qr`. -/
def mapWahaState (wahaState : String) : String :=
  if wahaState = "CONNECTED" ∨ wahaState = "connected" then "connected" else "pending_qr"

/-- `GET /api/whatsapp/sessions/status/[sessionId]`: lookup, tenant check,
then — when the account is configured — the provider poll; on a response,
`state || status || 'DISCONNECTED'` is mapped by `mapWahaState`,
`me.user || phoneNumber || session.phoneNumber` resolves the phone, and
the row is rewritten only when the mapped status or the phone changed; on
an unreachable provider the cached row is kept and the request still
succeeds. -/
def sessionStatusGET (store : Store) (tenant sessionId : String)
    (provider : ProviderStatusResult) (now : Nat) : ApiResp × Store :=
  match findSessionById store sessionId with
  | none => (.error 404 "Session not found", store)
  | some session =>
    -- `include: { account: true }` on a required relation.
    match findAccountById store session.accountId with
    | none => (.error 404 "Session not found", store)
    | some account =>
      if account.tenantId ≠ tenant then (.error 403 "Unauthorized", store) else
      if truthy account.wahaBaseUrl && truthy account.wahaApiKey
          && truthy session.providerSessionId then
        match provider with
        | .unreachable => (.ok 200, store)
        | .ok state statusField meUser phoneField =>
          let wahaState := jsOrS state (jsOrS statusField "DISCONNECTED")
          let newStatus := mapWahaState wahaState
          let phoneNumber := jsOrO meUser (jsOrO phoneField session.phoneNumber)
          if newStatus ≠ session.status ∨ phoneNumber ≠ session.phoneNumber then
            (.ok 200,
             { store with
                 sessions := store.sessions.map (fun x =>
                   if x.id == sessionId then
                     { x with
                         status := newStatus, phoneNumber := phoneNumber,
                         lastSyncAt := some now,
                         lastSeenAt := if newStatus = "connected" then some now
                           else session.lastSeenAt }
                   else x) })
          else (.ok 200, store)
      else (.ok 200, store)

/-! ## Theorems for claim C5 (provider state mapping in the status poll) -/

/-- Store with the fixture account and its connected session. -/
def c5Store : Store := { accounts := [fixAccount], sessions := [fixConnSession] }

/-- C5 counterexample: the claim maps `DISCONNECTED → disconnected`
case-insensitively; the route maps `DISCONNECTED` (and the mixed-case
`Connected`) to `pending_qr`, and polling a connected session whose
provider reports `DISCONNECTED` leaves it `pending_qr`, not
`disconnected`. -/
theorem c5_disconnected_maps_to_pending_qr_counterexample :
    mapWahaState "DISCONNECTED" = "pending_qr"
    ∧ ("pending_qr" : String) ≠ "disconnected"
    ∧ mapWahaState "Connected" = "pending_qr"
    ∧ ((sessionStatusGET c5Store "t1" "s-conn"
          (.ok (some "DISCONNECTED") none none none) 77).2.sessions.map
        (fun s => s.status) = ["pending_qr"]) :=
  ⟨rfl, by decide, rfl, rfl⟩

/-- C5 (amended): the poll maps the provider state to `connected` only on
the exact strings `CONNECTED` or `connected`, and every other state
(including `DISCONNECTED`) to `pending_qr`; on an unreachable provider the
store is untouched; when the provider responds, the session row is
rewritten — `status`, `phoneNumber`, `lastSyncAt := now`, and
`lastSeenAt := now` exactly when the new status is `connected` — only if
the mapped status or the resolved phone number differs from the stored
values, and is left untouched otherwise. -/
theorem c5_amended_poll_status (store : Store) (tenant sessionId : String)
    (session : WhatsappSession) (account : WhatsappAccount)
    (state stf mu pn : Option String) (now : Nat) (s : String) :
    mapWahaState "CONNECTED" = "connected"
    ∧ mapWahaState "connected" = "connected"
    ∧ (s ≠ "CONNECTED" → s ≠ "connected" → mapWahaState s = "pending_qr")
    ∧ (sessionStatusGET store tenant sessionId .unreachable now).2 = store
    ∧ (findSessionById store sessionId = some session →
       findAccountById store session.accountId = some account →
       account.tenantId = tenant →
       (truthy account.wahaBaseUrl && truthy account.wahaApiKey
         && truthy session.providerSessionId) = true →
       (sessionStatusGET store tenant sessionId (.ok state stf mu pn) now).2
         = (if mapWahaState (jsOrS state (jsOrS stf "DISCONNECTED")) ≠ session.status
              ∨ jsOrO mu (jsOrO pn session.phoneNumber) ≠ session.phoneNumber
            then { store with
                     sessions := store.sessions.map (fun x =>
                       if x.id == sessionId then
                         { x with
                             status := mapWahaState (jsOrS state (jsOrS stf "DISCONNECTED")),
                             phoneNumber := jsOrO mu (jsOrO pn session.phoneNumber),
                             lastSyncAt := some now,
                             lastSeenAt :=
                               if mapWahaState (jsOrS state (jsOrS stf "DISCONNECTED"))
                                   = "connected" then some now
                               else session.lastSeenAt }
                       else x) }
            else store)) := by
  refine ⟨rfl, rfl, ?_, ?_, ?_⟩
  · intro h1 h2
    simp [mapWahaState, h1, h2]
  · unfold sessionStatusGET
    repeat' split
    all_goals try rfl
    all_goals simp_all
  · intro h1 h2 h3 h4
    simp [sessionStatusGET, h1, h2, h3, h4]
    split <;> rfl

/-- Witness for `c5_amended_poll_status`: a connected session whose
provider reports `DISCONNECTED` ends in `pending_qr`. -/
theorem c5_amended_poll_status_witness :
    (sessionStatusGET c5Store "t1" "s-conn"
        (.ok (some "DISCONNECTED") none none none) 77).2.sessions.map
      (fun s => s.status) = ["pending_qr"] := by
  have h := (c5_amended_poll_status c5Store "t1" "s-conn" fixConnSession fixAccount
      (some "DISCONNECTED") none none none 77 "X").2.2.2.2 rfl rfl rfl rfl
  rw [h]
  rfl

/-! ## Inbound message webhook — POST /api/whatsapp/webhooks/message -/

/-- Body `data` of the inbound message webhook, with every alternative
field the route reads (`from`/`fromNumber`, `body`/`text`, `id`/`messageId`,
flat and nested media fields). `from` is spelled `fromField`. -/
structure MessageData where
  fromField : Option String := none
  fromNumber : Option String := none
  body : Option String := none
  text : Option String := none
  type : Option String := none
  id : Option String := none
  messageId : Option String := none
  timestamp : Option Nat := none
  mediaUrl : Option String := none
  mediaMimeType : Option String := none
  mediaCaption : Option String := none
  mediaObjUrl : Option String := none
  mediaObjMimeType : Option String := none
  mediaObjCaption : Option String := none
  deriving Repr, DecidableEq

/-- `prisma.whatsappSession.findFirst({ where: { providerSessionId } })`. -/
def findSessionByProviderId (store : Store) (inst : String) : Option WhatsappSession :=
  store.sessions.find? (fun s => s.providerSessionId == some inst)

/-- `prisma.contact.create` — the core contact table has no uniqueness on
the phone number, so the insert always succeeds. -/
def contactCreate (store : Store) (c : Contact) : Store :=
  { store with contacts := store.contacts ++ [c] }

/-- `prisma.whatsappContactIdentity.create`: the store enforces the unique
constraint on `whatsappNumber` (the schema field the route reads with
`findUnique`), so inserting a duplicate number throws (Prisma P2002),
modelled as `Except.error`. -/
def identityCreate (store : Store) (ci : WhatsappContactIdentity) : Except Unit Store :=
  match findIdentityByNumber store ci.whatsappNumber with
  | some _ => .error ()
  | none => .ok { store with identities := store.identities ++ [ci] }

/-- `prisma.whatsappConversation.findUnique({ where: { accountId_contactId } })`. -/
def findConversationByPair (store : Store) (accountId contactId : String) :
    Option WhatsappConversation :=
  store.conversations.find?
    (fun c => c.accountId == accountId && c.contactId == contactId)

/-- `prisma.whatsappConversation.create`: the store enforces the compound
unique key on `(accountId, contactId)` (the pair the route reads with
`findUnique`), so inserting a duplicate pair throws, modelled as
`Except.error`. -/
def conversationCreate (store : Store) (c : WhatsappConversation) : Except Unit Store :=
  match findConversationByPair store c.accountId c.contactId with
  | some _ => .error ()
  | none => .ok { store with conversations := store.conversations ++ [c] }

/-- The Contact row the webhook builds for an unknown number (`name` and
`phone` both the sender number; the row id is the store-generated key,
modelled as a function of the store). -/
def newContact (store : Store) (tenantId number : String) : Contact :=
  { id := "contact-" ++ toString store.contacts.length, tenantId := tenantId,
    name := number, phone := number }

/-- The ContactIdentity row the webhook builds for an unknown number. -/
def newIdentity (store : Store) (number : String) (now : Nat) : WhatsappContactIdentity :=
  { contactId := "contact-" ++ toString store.contacts.length,
    whatsappNumber := number, verified := true, verificationDate := some now }

/-- The contact find-or-create section of the inbound webhook: lookup by
number; when absent, create the Contact row, then the identity row.  A
thrown identity insert surfaces as `Except.error` carrying the store as it
stands — the already-created Contact row included, since the two creates
are separate awaits with no wrapping transaction. -/
def findOrCreateIdentity (store : Store) (tenantId number : String) (now : Nat) :
    Except Store (WhatsappContactIdentity × Store) :=
  match findIdentityByNumber store number with
  | some ci => .ok (ci, store)
  | none =>
    match identityCreate (contactCreate store (newContact store tenantId number))
        (newIdentity store number now) with
    | .error _ => .error (contactCreate store (newContact store tenantId number))
    | .ok store2 => .ok (newIdentity store number now, store2)

/-- The Conversation row the webhook builds when none exists for the pair. -/
def newConversation (store : Store) (accountId contactId sessionId : String) :
    WhatsappConversation :=
  { id := "conv-" ++ toString store.conversations.length, accountId := accountId,
    contactId := contactId, sessionId := some sessionId, status := "open" }

/-- The conversation find-or-create section of the inbound webhook. -/
def findOrCreateConversation (store : Store) (accountId contactId sessionId : String) :
    Except Store (WhatsappConversation × Store) :=
  match findConversationByPair store accountId contactId with
  | some conv => .ok (conv, store)
  | none =>
    match conversationCreate store (newConversation store accountId contactId sessionId) with
    | .error _ => .error store
    | .ok s3 => .ok (newConversation store accountId contactId sessionId, s3)

/-- The inbound Message row the webhook writes (defensive field defaults,
`status := delivered`, `createdAt` from the event timestamp). -/
def inboundMessageRow (store : Store) (data : MessageData) (session : WhatsappSession)
    (conv : WhatsappConversation) (now : Nat) : WhatsappMessage :=
  { id := "msg-" ++ toString store.messages.length,
    conversationId := conv.id, sessionId := session.id,
    direction := "in", messageType := jsOrS data.type "text",
    whatsappMessageId := jsOrS data.id (jsOrS data.messageId ""),
    fromNumber := jsOrS data.fromField (jsOrS data.fromNumber ""),
    toNumber := jsOrS session.phoneNumber "",
    text := if jsOrS data.body (jsOrS data.text "") = "" then none
      else some (jsOrS data.body (jsOrS data.text "")),
    mediaUrl := jsOrO data.mediaUrl (jsOrO data.mediaObjUrl none),
    mediaMimeType := jsOrO data.mediaMimeType (jsOrO data.mediaObjMimeType none),
    mediaCaption := jsOrO data.mediaCaption (jsOrO data.mediaObjCaption none),
    status := "delivered", createdAt := jsDate data.timestamp now }

/-- The webhook's write section after the conversation is resolved:
message create, conversation `lastMessageAt`/`lastDirection`/`unreadCount`
update, session `dailyRecvCount`/`lastSeenAt` update. -/
def recordInbound (store : Store) (data : MessageData) (session : WhatsappSession)
    (conv : WhatsappConversation) (now : Nat) : Store :=
  { store with
      messages := store.messages ++ [inboundMessageRow store data session conv now],
      conversations := store.conversations.map (fun c =>
        if c.id == conv.id then
          { c with lastMessageAt := some (jsDate data.timestamp now),
                   lastDirection := some "in",
                   unreadCount := c.unreadCount + 1 }
        else c),
      sessions := store.sessions.map (fun s =>
        if s.id == session.id then
          { s with dailyRecvCount := s.dailyRecvCount + 1, lastSeenAt := some now }
        else s) }

/-- `POST /api/whatsapp/webhooks/message` up to (and including) the store
writes, before the audit insert: payload validation, session lookup by
provider id, defensive extraction, contact and conversation
find-or-create, then `recordInbound`. -/
def messageWebhookCore (store : Store) (instV : Option String)
    (dataV : Option MessageData) (now : Nat) :
    Except (Nat × String × Store) (WhatsappSession × String × Store) :=
  if ¬ truthy instV then .error (400, "Invalid webhook payload", store) else
  match dataV with
  | none => .error (400, "Invalid webhook payload", store)
  | some data =>
    match findSessionByProviderId store (jsOrS instV "") with
    | none => .error (404, "Session not found", store)
    | some session =>
      -- `include: { account: true }` on a required relation.
      match findAccountById store session.accountId with
      | none => .error (404, "Session not found", store)
      | some account =>
        if jsOrS data.fromField (jsOrS data.fromNumber "") = "" then
          .error (400, "Missing from number", store) else
        match findOrCreateIdentity store account.tenantId
            (jsOrS data.fromField (jsOrS data.fromNumber "")) now with
        | .error s => .error (500, "Webhook processing failed", s)
        | .ok (ci, store2) =>
          match findOrCreateConversation store2 session.accountId ci.contactId session.id with
          | .error s => .error (500, "Webhook processing failed", s)
          | .ok (conv, store3) =>
            .ok (session, jsOrS data.fromField (jsOrS data.fromNumber ""),
                 recordInbound store3 data session conv now)

/-- `POST /api/whatsapp/webhooks/message`: the core pipeline, then the
audit write.  `auditOk = false` models the audit insert throwing into the
route's outer catch (responding 500). -/
def messageWebhookPOST (store : Store) (instV : Option String)
    (dataV : Option MessageData) (now : Nat) (auditOk : Bool) : ApiResp × Store :=
  match messageWebhookCore store instV dataV now with
  | .error (st, msg, s) => (.error st msg, s)
  | .ok (session, fromNumber, s6) =>
    if auditOk then
      (.ok 200,
       { s6 with
           auditLog := s6.auditLog ++
             [{ accountId := session.accountId, sessionId := some session.id,
                action := "message_receive", status := "success",
                description := some ("Received message from " ++ fromNumber) }] })
    else
      (.error 500 "Webhook processing failed", s6)

/-! ## Conversation update — PATCH /api/whatsapp/conversations/[conversationId] -/

/-- The parsed `updateConversationSchema` body (all fields optional). -/
structure ConvUpdatePayload where
  sessionId : Option String := none
  ticketId : Option String := none
  status : Option String := none
  deriving Repr, DecidableEq

/-- The `PATCH` route's optional session validation:
`if (validated.sessionId) { ... }` (a truthiness check), requiring the
session to exist and belong to the conversation's account. -/
def convPatchSessionOk (store : Store) (payload : ConvUpdatePayload)
    (conversation : WhatsappConversation) : Bool :=
  match payload.sessionId with
  | some sid =>
    if sid = "" then true
    else
      match findSessionById store sid with
      | none => false
      | some s => s.accountId == conversation.accountId
  | none => true

/-- The `PATCH` route's field-wise update: each field is applied when
present (`!== undefined`), not when truthy. -/
def convPatchApply (payload : ConvUpdatePayload) (c : WhatsappConversation) :
    WhatsappConversation :=
  let c1 := match payload.sessionId with
    | some sid => { c with sessionId := some sid }
    | none => c
  let c2 := match payload.ticketId with
    | some t => { c1 with ticketId := some t }
    | none => c1
  match payload.status with
  | some st => { c2 with status := st }
  | none => c2

/-- `PATCH /api/whatsapp/conversations/[conversationId]`: lookup, tenant
check, optional session validation, then the field-wise update. -/
def conversationPatch (store : Store) (tenant conversationId : String)
    (payload : ConvUpdatePayload) : ApiResp × Store :=
  match findConversationById store conversationId with
  | none => (.error 404 "Conversation not found", store)
  | some conversation =>
    match findAccountById store conversation.accountId with
    | none => (.error 404 "Conversation not found", store)
    | some account =>
      if account.tenantId ≠ tenant then (.error 403 "Unauthorized", store) else
      if ¬ convPatchSessionOk store payload conversation then
        (.error 400 "Invalid session", store) else
      (.ok 200,
       { store with
           conversations := store.conversations.map (fun c =>
             if c.id == conversationId then convPatchApply payload c else c) })

/-! ## Read-only tenant-facing routes (guards then reads) -/

/-- `GET /api/whatsapp/sessions/[accountId]`. -/
def sessionsListGET (store : Store) (tenant accountId : String) : ApiResp × Store :=
  match findAccountById store accountId with
  | none => (.error 403 "Unauthorized", store)
  | some account =>
    if account.tenantId ≠ tenant then (.error 403 "Unauthorized", store)
    else (.ok 200, store)

/-- `GET /api/whatsapp/conversations/[conversationId]`. -/
def conversationGET (store : Store) (tenant conversationId : String) : ApiResp × Store :=
  match findConversationById store conversationId with
  | none => (.error 404 "Conversation not found", store)
  | some conversation =>
    match findAccountById store conversation.accountId with
    | none => (.error 404 "Conversation not found", store)
    | some account =>
      if account.tenantId ≠ tenant then (.error 403 "Unauthorized", store)
      else (.ok 200, store)

/-- `GET /api/whatsapp/conversations/[conversationId]/messages`. -/
def messagesListGET (store : Store) (tenant conversationId : String) : ApiResp × Store :=
  match findConversationById store conversationId with
  | none => (.error 404 "Conversation not found", store)
  | some conversation =>
    match findAccountById store conversation.accountId with
    | none => (.error 404 "Conversation not found", store)
    | some account =>
      if account.tenantId ≠ tenant then (.error 403 "Unauthorized", store)
      else (.ok 200, store)

/-- `GET /api/whatsapp/templates?accountId=...`. -/
def templatesListGET (store : Store) (tenant : String) (accountIdQ : Option String) :
    ApiResp × Store :=
  if ¬ truthy accountIdQ then (.error 400 "accountId required", store) else
  match findAccountById store (jsOrS accountIdQ "") with
  | none => (.error 403 "Unauthorized", store)
  | some account =>
    if account.tenantId ≠ tenant then (.error 403 "Unauthorized", store)
    else (.ok 200, store)

/-! ## Session create — POST /api/whatsapp/sessions -/

/-- The parsed `createSessionSchema` body. -/
structure CreateSessionPayload where
  accountId : String
  employeeId : Option String := none
  deviceName : Option String := none
  deriving Repr, DecidableEq

/-- Outcome of the provider instance-create + QR calls (either axios call
throwing collapses into `fail`, as in the route's single try/catch). -/
inductive ProviderQrResult where
  | ok (qr : Option String) (qrcode : Option String)
  | fail (respDataMessage : Option String) (errMessage : String)
  deriving Repr, DecidableEq

/-- Response of the session-create route. -/
inductive SessionResp where
  | created (session : WhatsappSession)
  | failed (status : Nat) (msg : String)
  deriving Repr, DecidableEq

/-- `POST /api/whatsapp/sessions`: validation, tenant check, configuration
check, provider instance + QR creation (aborting with 500 and no local row
on provider failure), session row insert in `pending_qr`, audit write. -/
def sessionCreatePOST (store : Store) (tenant uid : String)
    (payload : CreateSessionPayload) (provider : ProviderQrResult) (now : Nat)
    (auditOk : Bool) : SessionResp × Store :=
  if payload.accountId = "" then (.failed 400 "Validation error", store) else
  match findAccountById store payload.accountId with
  | none => (.failed 403 "Unauthorized", store)
  | some account =>
    if account.tenantId ≠ tenant then (.failed 403 "Unauthorized", store) else
    if !truthy account.wahaBaseUrl || !truthy account.wahaApiKey then
      (.failed 400 "WAHA configuration incomplete", store) else
    let sessionName := tenant ++ "-" ++ jsOrS payload.employeeId "shared" ++ "-" ++ toString now
    match provider with
    | .fail dm em =>
      (.failed 500 ("Failed to create WAHA session: "
          ++ jsOrS dm (jsOrS (some em) "Failed to create WAHA session")), store)
    | .ok qr qrcode =>
      let session : WhatsappSession :=
        { id := "sess-" ++ toString store.sessions.length,
          accountId := payload.accountId,
          employeeId := if truthy payload.employeeId then payload.employeeId else none,
          providerSessionId := some sessionName,
          qrCodeUrl := some (jsOrS qr (jsOrS qrcode "")),
          status := "pending_qr",
          deviceName := jsOrS payload.deviceName "Device" }
      let store1 : Store := { store with sessions := store.sessions ++ [session] }
      if auditOk then
        (.created session,
         { store1 with
             auditLog := store1.auditLog ++
               [{ accountId := payload.accountId, sessionId := some session.id,
                  action := "session_create", status := "success",
                  description := some ("Created session " ++ sessionName),
                  userId := some uid }] })
      else
        (.failed 500 "Failed to create session", store1)

/-! ## Template create — POST /api/whatsapp/templates -/

/-- The parsed `createTemplateSchema` body (the fields this model keeps). -/
structure CreateTemplatePayload where
  accountId : String
  name : String
  category : Option String := none
  languageCode : Option String := none
  bodyTemplate : String
  deriving Repr, DecidableEq

/-- `POST /api/whatsapp/templates`: validation, tenant check, template row
insert, audit write. -/
def templateCreatePOST (store : Store) (tenant uid : String)
    (p : CreateTemplatePayload) (auditOk : Bool) : ApiResp × Store :=
  if p.accountId = "" ∨ p.name = "" ∨ p.bodyTemplate = "" then
    (.error 400 "Validation error", store) else
  match findAccountById store p.accountId with
  | none => (.error 403 "Unauthorized", store)
  | some account =>
    if account.tenantId ≠ tenant then (.error 403 "Unauthorized", store) else
    let t : WhatsappTemplate :=
      { id := "tpl-" ++ toString store.templates.length, accountId := p.accountId,
        name := p.name, category := jsOrS p.category "custom",
        languageCode := jsOrS p.languageCode "en", bodyTemplate := p.bodyTemplate,
        createdById := some uid }
    let store1 : Store := { store with templates := store.templates ++ [t] }
    if auditOk then
      (.ok 201,
       { store1 with
           auditLog := store1.auditLog ++
             [{ accountId := p.accountId, action := "template_create",
                status := "success",
                description := some ("Created template " ++ p.name),
                userId := some uid }] })
    else
      (.error 500 "Failed to create template", store1)

/-! ## Frame lemmas for the webhook's store sub-operations -/

/-- A successful identity insert only appends to `identities`. -/
theorem identityCreate_ok_spec (store : Store) (ci : WhatsappContactIdentity)
    (s' : Store) (h : identityCreate store ci = Except.ok s') :
    s'.accounts = store.accounts ∧ s'.sessions = store.sessions
    ∧ s'.contacts = store.contacts ∧ s'.identities = store.identities ++ [ci]
    ∧ s'.conversations = store.conversations ∧ s'.messages = store.messages
    ∧ s'.templates = store.templates ∧ s'.auditLog = store.auditLog := by
  unfold identityCreate at h
  split at h
  · simp_all
  · cases h
    exact ⟨rfl, rfl, rfl, rfl, rfl, rfl, rfl, rfl⟩

/-- A successful conversation insert only appends to `conversations`,
and only when no row with the same `(accountId, contactId)` pair exists. -/
theorem conversationCreate_ok_spec (store : Store) (c : WhatsappConversation)
    (s' : Store) (h : conversationCreate store c = Except.ok s') :
    findConversationByPair store c.accountId c.contactId = none
    ∧ s'.conversations = store.conversations ++ [c]
    ∧ s'.accounts = store.accounts ∧ s'.sessions = store.sessions
    ∧ s'.contacts = store.contacts ∧ s'.identities = store.identities
    ∧ s'.messages = store.messages ∧ s'.auditLog = store.auditLog := by
  unfold conversationCreate at h
  split at h
  · simp_all
  · cases h
    refine ⟨by assumption, rfl, rfl, rfl, rfl, rfl, rfl, rfl⟩

/-- The contact find-or-create step never touches sessions, conversations,
messages or the audit log, whether it succeeds or throws. -/
theorem findOrCreateIdentity_frame (store : Store) (t n : String) (now : Nat) :
    (∀ ci s2, findOrCreateIdentity store t n now = Except.ok (ci, s2) →
      s2.sessions = store.sessions ∧ s2.conversations = store.conversations
      ∧ s2.messages = store.messages ∧ s2.auditLog = store.auditLog)
    ∧ (∀ s1, findOrCreateIdentity store t n now = Except.error s1 →
      s1.sessions = store.sessions ∧ s1.conversations = store.conversations
      ∧ s1.messages = store.messages ∧ s1.auditLog = store.auditLog) := by
  constructor
  · intro ci s2 h
    unfold findOrCreateIdentity at h
    split at h
    · cases h
      exact ⟨rfl, rfl, rfl, rfl⟩
    · split at h
      · simp_all
      · rename_i store2 heqIC
        cases h
        obtain ⟨_, hS, _, _, hCv, hM, _, hL⟩ := identityCreate_ok_spec _ _ _ heqIC
        exact ⟨hS, hCv, hM, hL⟩
  · intro s1 h
    unfold findOrCreateIdentity at h
    split at h
    · simp_all
    · split at h
      · cases h
        exact ⟨rfl, rfl, rfl, rfl⟩
      · simp_all

/-- The conversation find-or-create step never touches sessions, messages
or the audit log; on success the conversation list is either untouched or
extended with the new row, whose pair was absent. -/
theorem findOrCreateConversation_frame (store : Store) (aid cid sid : String) :
    (∀ conv s3, findOrCreateConversation store aid cid sid = Except.ok (conv, s3) →
      s3.sessions = store.sessions ∧ s3.messages = store.messages
      ∧ s3.auditLog = store.auditLog
      ∧ (s3.conversations = store.conversations
         ∨ (findConversationByPair store conv.accountId conv.contactId = none
            ∧ s3.conversations = store.conversations ++ [conv])))
    ∧ (∀ s1, findOrCreateConversation store aid cid sid = Except.error s1 →
      s1 = store) := by
  constructor
  · intro conv s3 h
    unfold findOrCreateConversation at h
    split at h
    · cases h
      exact ⟨rfl, rfl, rfl, Or.inl rfl⟩
    · split at h
      · simp_all
      · rename_i s3q heqCC
        cases h
        obtain ⟨hfind, hconvs, _, hS, _, _, hM, hL⟩ := conversationCreate_ok_spec _ _ _ heqCC
        exact ⟨hS, hM, hL, Or.inr ⟨hfind, hconvs⟩⟩
  · intro s1 h
    unfold findOrCreateConversation at h
    split at h
    · simp_all
    · split at h
      · cases h
        rfl
      · simp_all

/-- The webhook core never touches the audit log, in any outcome. -/
theorem messageWebhookCore_auditLog (store : Store) (instV : Option String)
    (dataV : Option MessageData) (now : Nat) :
    (∀ sess fn s6, messageWebhookCore store instV dataV now = Except.ok (sess, fn, s6) →
      s6.auditLog = store.auditLog)
    ∧ (∀ st msg s, messageWebhookCore store instV dataV now = Except.error (st, msg, s) →
      s.auditLog = store.auditLog) := by
  constructor
  · intro sess fn s6 h
    unfold messageWebhookCore at h
    split at h
    · exact Except.noConfusion h
    split at h
    · exact Except.noConfusion h
    rename_i data
    split at h
    · exact Except.noConfusion h
    rename_i session heqSess
    split at h
    · exact Except.noConfusion h
    rename_i account heqAcc
    split at h
    · exact Except.noConfusion h
    split at h
    · exact Except.noConfusion h
    rename_i ci store2 heqFOC
    split at h
    · exact Except.noConfusion h
    rename_i conv store3 heqFOCv
    cases h
    have h4 := ((findOrCreateIdentity_frame store _ _ now).1 _ _ heqFOC).2.2.2
    have g3 := ((findOrCreateConversation_frame store2 _ _ _).1 _ _ heqFOCv).2.2.1
    show store3.auditLog = store.auditLog
    rw [g3, h4]
  · intro st msg s h
    unfold messageWebhookCore at h
    split at h
    · cases h
      rfl
    split at h
    · cases h
      rfl
    rename_i data
    split at h
    · cases h
      rfl
    rename_i session heqSess
    split at h
    · cases h
      rfl
    rename_i account heqAcc
    split at h
    · cases h
      rfl
    split at h
    · rename_i s1 heqFOC
      cases h
      exact ((findOrCreateIdentity_frame store _ _ now).2 _ heqFOC).2.2.2
    rename_i ci store2 heqFOC
    split at h
    · rename_i s1 heqFOCv
      cases h
      have h4 := ((findOrCreateIdentity_frame store _ _ now).1 _ _ heqFOC).2.2.2
      have hEq := (findOrCreateConversation_frame store2 _ _ _).2 _ heqFOCv
      rw [hEq, h4]
    exact Except.noConfusion h


/-! ## Theorems for claim C7 (concurrent first-contact race) -/

/-- Account and session fixtures for the webhook race. -/
def c7Account : WhatsappAccount := { id := "a7", tenantId := "t7" }

/-- Session reachable under provider instance name `waha-1`. -/
def c7Session : WhatsappSession :=
  { id := "s7", accountId := "a7", providerSessionId := some "waha-1",
    status := "connected", phoneNumber := some "+15557000" }

/-- Initial store: no contacts, identities or conversations. -/
def c7Store0 : Store := { accounts := [c7Account], sessions := [c7Session] }

/-- First-contact webhook body from an unknown number. -/
def c7Data : MessageData :=
  { fromField := some "+911234567890", body := some "Hi", id := some "prov-1",
    timestamp := some 1700000000 }

/-- Store after request A's complete run. -/
def c7StoreA : Store :=
  (messageWebhookPOST c7Store0 (some "waha-1") (some c7Data) 1000 true).2

/-- The contact request B creates from its stale (pre-A) identity lookup:
B looked the number up against `c7Store0`, found nothing, and continues
its create steps against the post-A store. -/
def c7ContactB : Contact :=
  { id := "contact-" ++ toString c7StoreA.contacts.length, tenantId := "t7",
    name := "+911234567890", phone := "+911234567890" }

/-- Store after B's contact insert (B's next await). -/
def c7StoreB1 : Store := contactCreate c7StoreA c7ContactB

/-- The identity row B then tries to insert. -/
def c7IdentityB : WhatsappContactIdentity :=
  { contactId := c7ContactB.id, whatsappNumber := "+911234567890",
    verificationDate := some 2000 }

/-- C7 counterexample: interleave two first-contact deliveries of the same
unknown number (both lookups before either insert).  A completes; B's
contact insert still succeeds (no constraint on the contact table) and
only B's identity insert hits the store constraint.  Result: two Contact
rows — not the exactly-one the claim states — with one ContactIdentity. -/
theorem c7_duplicate_contact_counterexample :
    findIdentityByNumber c7Store0 "+911234567890" = none
    ∧ (messageWebhookPOST c7Store0 (some "waha-1") (some c7Data) 1000 true).1
        = ApiResp.ok 200
    ∧ identityCreate c7StoreB1 c7IdentityB = Except.error ()
    ∧ c7StoreB1.contacts.length = 2
    ∧ (c7StoreB1.identities.filter
        (fun i => i.whatsappNumber == "+911234567890")).length = 1 :=
  ⟨rfl, rfl, rfl, rfl, rfl⟩

/-- C7 (amended): the store's unique constraint on `whatsappNumber` does
guarantee at most one ContactIdentity — an insert succeeds only when the
number is absent, and always throws when it is present — but the contact
creation itself is an application-level check-then-insert outside any
transaction, so under the two-delivery race the loser's already-created
Contact row persists: two Contact rows for the same number result, with
exactly one ContactIdentity. -/
theorem c7_amended_contact_race (store : Store) (ci : WhatsappContactIdentity)
    (s' : Store) :
    (identityCreate store ci = Except.ok s' →
      findIdentityByNumber store ci.whatsappNumber = none
      ∧ s'.identities = store.identities ++ [ci])
    ∧ (findIdentityByNumber store ci.whatsappNumber ≠ none →
      identityCreate store ci = Except.error ())
    ∧ (c7StoreB1.contacts.length = 2
      ∧ (c7StoreB1.identities.filter
          (fun i => i.whatsappNumber == "+911234567890")).length = 1
      ∧ c7StoreB1.contacts.map (fun c => c.phone)
          = ["+911234567890", "+911234567890"]) := by
  refine ⟨?_, ?_, rfl, rfl, rfl⟩
  · intro h
    unfold identityCreate at h
    split at h
    · simp_all
    · cases h
      exact ⟨by assumption, rfl⟩
  · intro h
    unfold identityCreate
    split
    · rfl
    · simp_all

/-- Witness for `c7_amended_contact_race`: B's identity insert throws. -/
theorem c7_amended_contact_race_witness :
    identityCreate c7StoreB1 c7IdentityB = Except.error () :=
  (c7_amended_contact_race c7StoreB1 c7IdentityB {}).2.1 (by decide)

/-! ## Theorems for claim C9 (audit-write failure handling) -/

/-- C9 counterexample: with the audit insert throwing, the inbound webhook
answers 500 instead of its success response — even though the message row
was already written — while the same input with a healthy audit write
answers 200.  The audit failure therefore does fail the triggering
operation's response. -/
theorem c9_audit_failure_fails_request_counterexample :
    ((messageWebhookPOST c7Store0 (some "waha-1") (some c7Data) 1000 false).1
        = ApiResp.error 500 "Webhook processing failed")
    ∧ ((messageWebhookPOST c7Store0 (some "waha-1") (some c7Data) 1000 false).2.messages.length = 1)
    ∧ ((messageWebhookPOST c7Store0 (some "waha-1") (some c7Data) 1000 true).1
        = ApiResp.ok 200) :=
  ⟨rfl, rfl, rfl⟩

/-! ## Conversation pair uniqueness (claim C6) -/

/-- At most one conversation per `(accountId, contactId)` pair. -/
def convPairUnique (l : List WhatsappConversation) : Prop :=
  l.Pairwise (fun a b => ¬(a.accountId = b.accountId ∧ a.contactId = b.contactId))

/-- Mapping a pair-preserving update over the conversation list preserves
pair uniqueness. -/
theorem convPairUnique_map (l : List WhatsappConversation)
    (f : WhatsappConversation → WhatsappConversation)
    (hf : ∀ c, (f c).accountId = c.accountId ∧ (f c).contactId = c.contactId)
    (h : convPairUnique l) : convPairUnique (l.map f) := by
  refine List.Pairwise.map f ?_ h
  intro a b hab hcon
  exact hab ⟨((hf a).1).symm.trans (hcon.1.trans (hf b).1),
             ((hf a).2).symm.trans (hcon.2.trans (hf b).2)⟩

/-- Appending a conversation whose pair is absent preserves uniqueness. -/
theorem convPairUnique_append (l : List WhatsappConversation) (c : WhatsappConversation)
    (h : convPairUnique l)
    (hfind : l.find? (fun x => x.accountId == c.accountId && x.contactId == c.contactId)
      = none) :
    convPairUnique (l ++ [c]) := by
  unfold convPairUnique
  rw [List.pairwise_append]
  refine ⟨h, List.pairwise_singleton _ _, ?_⟩
  intro a ha b hb
  rw [List.mem_singleton] at hb
  subst hb
  have hx := List.find?_eq_none.mp hfind a ha
  intro hcon
  apply hx
  simp [hcon.1, hcon.2]

/-- The webhook core preserves conversation pair uniqueness, in any
outcome: the only conversation insert runs through the store's compound
unique key, and the in-place update keeps each row's pair. -/
theorem messageWebhookCore_convUnique (store : Store) (instV : Option String)
    (dataV : Option MessageData) (now : Nat) (h : convPairUnique store.conversations) :
    (∀ sess fn s6, messageWebhookCore store instV dataV now = Except.ok (sess, fn, s6) →
      convPairUnique s6.conversations)
    ∧ (∀ st msg s, messageWebhookCore store instV dataV now = Except.error (st, msg, s) →
      convPairUnique s.conversations) := by
  constructor
  · intro sess fn s6 hq
    unfold messageWebhookCore at hq
    split at hq
    · exact Except.noConfusion hq
    split at hq
    · exact Except.noConfusion hq
    rename_i data
    split at hq
    · exact Except.noConfusion hq
    rename_i session heqSess
    split at hq
    · exact Except.noConfusion hq
    rename_i account heqAcc
    split at hq
    · exact Except.noConfusion hq
    split at hq
    · exact Except.noConfusion hq
    rename_i ci store2 heqFOC
    split at hq
    · exact Except.noConfusion hq
    rename_i conv store3 heqFOCv
    cases hq
    have h2cv := ((findOrCreateIdentity_frame store _ _ now).1 _ _ heqFOC).2.1
    obtain ⟨_, _, _, hconvOr⟩ := (findOrCreateConversation_frame store2 _ _ _).1 _ _ heqFOCv
    show convPairUnique (store3.conversations.map _)
    refine convPairUnique_map _ _ ?_ ?_
    · intro c
      dsimp only
      split
      · exact ⟨rfl, rfl⟩
      · exact ⟨rfl, rfl⟩
    · rcases hconvOr with hsame | ⟨hnone, happ⟩
      · rw [hsame, h2cv]
        exact h
      · rw [happ, h2cv]
        unfold findConversationByPair at hnone
        rw [h2cv] at hnone
        exact convPairUnique_append _ _ h hnone
  · intro st msg s hq
    unfold messageWebhookCore at hq
    split at hq
    · cases hq
      exact h
    split at hq
    · cases hq
      exact h
    rename_i data
    split at hq
    · cases hq
      exact h
    rename_i session heqSess
    split at hq
    · cases hq
      exact h
    rename_i account heqAcc
    split at hq
    · cases hq
      exact h
    split at hq
    · rename_i s1 heqFOC
      cases hq
      have := ((findOrCreateIdentity_frame store _ _ now).2 _ heqFOC).2.1
      rw [this]
      exact h
    rename_i ci store2 heqFOC
    split at hq
    · rename_i s1 heqFOCv
      cases hq
      have h2cv := ((findOrCreateIdentity_frame store _ _ now).1 _ _ heqFOC).2.1
      have hEq := (findOrCreateConversation_frame store2 _ _ _).2 _ heqFOCv
      rw [hEq, h2cv]
      exact h
    exact Except.noConfusion hq

/-- C6: at most one Conversation per `(accountId, contactId)` is preserved
by the inbound webhook's find-or-create, by the send route, and by the
conversation update route: the webhook's only insert goes through the
store's compound unique key after a lookup, and both update paths rewrite
rows in place without touching `accountId`/`contactId`. -/
theorem c6_conversation_pair_uniqueness (store : Store) (instV : Option String)
    (dataV : Option MessageData) (now now2 : Nat) (aOk aOk2 : Bool)
    (tenant uid tenant2 cid : String) (payload : SendPayload)
    (provider : ProviderSendResult) (upd : ConvUpdatePayload)
    (h : convPairUnique store.conversations) :
    convPairUnique (messageWebhookPOST store instV dataV now aOk).2.conversations
    ∧ convPairUnique (sendMessagePOST store tenant uid payload provider now2 aOk2).2.conversations
    ∧ convPairUnique (conversationPatch store tenant2 cid upd).2.conversations := by
  refine ⟨?_, ?_, ?_⟩
  · unfold messageWebhookPOST
    rcases hcore : messageWebhookCore store instV dataV now with ⟨st, msg, s⟩ | ⟨sess, fn, s6⟩
    · exact (messageWebhookCore_convUnique store instV dataV now h).2 _ _ _ hcore
    · have h6 := (messageWebhookCore_convUnique store instV dataV now h).1 _ _ _ hcore
      cases aOk
      · exact h6
      · exact h6
  · unfold sendMessagePOST
    rcases hprep : sendPrep store tenant payload with e | prep
    · exact h
    · have hm : convPairUnique (store.conversations.map (fun c =>
          if c.id == payload.conversationId then
            { c with lastMessageAt := some now2, lastDirection := some "out" }
          else c)) := by
        refine convPairUnique_map _ _ ?_ h
        intro c
        dsimp only
        split
        · exact ⟨rfl, rfl⟩
        · exact ⟨rfl, rfl⟩
      cases aOk2
      · exact hm
      · exact hm
  · unfold conversationPatch
    repeat' split
    all_goals try exact h
    all_goals
      refine convPairUnique_map _ _ ?_ h
      intro c
      dsimp only
      split
      · unfold convPatchApply
        cases upd.sessionId <;> cases upd.ticketId <;> cases upd.status <;> exact ⟨rfl, rfl⟩
      · exact ⟨rfl, rfl⟩

/-- Witness for `c6_conversation_pair_uniqueness` on the fixture store. -/
theorem c6_conversation_pair_uniqueness_witness :
    convPairUnique ((conversationPatch fixStore "t1" "cv1"
        { status := some "closed" }).2.conversations) :=
  (c6_conversation_pair_uniqueness fixStore (some "waha-9") none 5 6 true true
      "t1" "u1" "t1" "cv1" { conversationId := "cv1" } (.ok none none)
      { status := some "closed" }
      (by simp [convPairUnique, fixStore])).2.2

/-! ## Theorems for claim C8 (tenant isolation) -/

/-- C8: every embedded account-scoped tenant-facing operation — session
create, session list, session status, conversation read, conversation
update, message list, send, template list, template create — answers
403 `Unauthorized` and leaves the store unchanged whenever the resolved
account's `tenantId` differs from the caller's. -/
theorem c8_tenant_isolation (store : Store) (tenant uid : String)
    (account : WhatsappAccount) (conv : WhatsappConversation) (sess : WhatsappSession)
    (spay : CreateSessionPayload) (qr : ProviderQrResult) (nowA nowB : Nat)
    (payload : SendPayload) (provider : ProviderSendResult) (upd : ConvUpdatePayload)
    (tpay : CreateTemplatePayload) (aid cid sid : String) (aidQ : Option String)
    (pstat : ProviderStatusResult) (aOk : Bool)
    (hT : account.tenantId ≠ tenant) :
    (spay.accountId ≠ "" → findAccountById store spay.accountId = some account →
      sessionCreatePOST store tenant uid spay qr nowA aOk
        = (.failed 403 "Unauthorized", store))
    ∧ (findAccountById store aid = some account →
      sessionsListGET store tenant aid = (.error 403 "Unauthorized", store))
    ∧ (findSessionById store sid = some sess →
      findAccountById store sess.accountId = some account →
      sessionStatusGET store tenant sid pstat nowA = (.error 403 "Unauthorized", store))
    ∧ (findConversationById store cid = some conv →
      findAccountById store conv.accountId = some account →
      conversationGET store tenant cid = (.error 403 "Unauthorized", store))
    ∧ (findConversationById store cid = some conv →
      findAccountById store conv.accountId = some account →
      conversationPatch store tenant cid upd = (.error 403 "Unauthorized", store))
    ∧ (findConversationById store cid = some conv →
      findAccountById store conv.accountId = some account →
      messagesListGET store tenant cid = (.error 403 "Unauthorized", store))
    ∧ (payload.conversationId ≠ "" → truthy payload.text = true →
      findConversationById store payload.conversationId = some conv →
      findAccountById store conv.accountId = some account →
      sendMessagePOST store tenant uid payload provider nowB aOk
        = (.failed 403 "Unauthorized", store))
    ∧ (truthy aidQ = true → findAccountById store (jsOrS aidQ "") = some account →
      templatesListGET store tenant aidQ = (.error 403 "Unauthorized", store))
    ∧ (tpay.accountId ≠ "" → tpay.name ≠ "" → tpay.bodyTemplate ≠ "" →
      findAccountById store tpay.accountId = some account →
      templateCreatePOST store tenant uid tpay aOk = (.error 403 "Unauthorized", store)) := by
  refine ⟨?_, ?_, ?_, ?_, ?_, ?_, ?_, ?_, ?_⟩
  · intro h1 h2
    simp [sessionCreatePOST, h1, h2, hT]
  · intro h1
    simp [sessionsListGET, h1, hT]
  · intro h1 h2
    simp [sessionStatusGET, h1, h2, hT]
  · intro h1 h2
    simp [conversationGET, h1, h2, hT]
  · intro h1 h2
    simp [conversationPatch, h1, h2, hT]
  · intro h1 h2
    simp [messagesListGET, h1, h2, hT]
  · intro h1 h2 h3 h4
    simp [sendMessagePOST, sendPrep, h1, h2, h3, h4, hT]
  · intro h1 h2
    simp [templatesListGET, h1, h2, hT]
  · intro h1 h2 h3 h4
    simp [templateCreatePOST, h1, h2, h3, h4, hT]

/-- Witness for `c8_tenant_isolation`: a caller under tenant `t-evil`
against the fixture store (owned by tenant `t1`). -/
theorem c8_tenant_isolation_witness :
    sessionCreatePOST fixStore "t-evil" "u1" { accountId := "a1" } (.ok none none) 1 true
        = (.failed 403 "Unauthorized", fixStore)
    ∧ sessionsListGET fixStore "t-evil" "a1" = (.error 403 "Unauthorized", fixStore)
    ∧ sessionStatusGET fixStore "t-evil" "s-conn" .unreachable 1
        = (.error 403 "Unauthorized", fixStore)
    ∧ conversationGET fixStore "t-evil" "cv1" = (.error 403 "Unauthorized", fixStore)
    ∧ conversationPatch fixStore "t-evil" "cv1" { status := some "closed" }
        = (.error 403 "Unauthorized", fixStore)
    ∧ messagesListGET fixStore "t-evil" "cv1" = (.error 403 "Unauthorized", fixStore)
    ∧ sendMessagePOST fixStore "t-evil" "u1" { conversationId := "cv1", text := some "x" }
        (.ok none none) 2 true = (.failed 403 "Unauthorized", fixStore)
    ∧ templatesListGET fixStore "t-evil" (some "a1") = (.error 403 "Unauthorized", fixStore)
    ∧ templateCreatePOST fixStore "t-evil" "u1"
        { accountId := "a1", name := "n", bodyTemplate := "b" } true
        = (.error 403 "Unauthorized", fixStore) := by
  have H := c8_tenant_isolation fixStore "t-evil" "u1" fixAccount fixConv fixConnSession
    { accountId := "a1" } (.ok none none) 1 2
    { conversationId := "cv1", text := some "x" } (.ok none none) { status := some "closed" }
    { accountId := "a1", name := "n", bodyTemplate := "b" } "a1" "cv1" "s-conn" (some "a1")
    .unreachable true (by decide)
  exact ⟨H.1 (by decide) rfl, H.2.1 rfl, H.2.2.1 rfl rfl, H.2.2.2.1 rfl rfl,
         H.2.2.2.2.1 rfl rfl, H.2.2.2.2.2.1 rfl rfl,
         H.2.2.2.2.2.2.1 (by decide) rfl rfl rfl,
         H.2.2.2.2.2.2.2.1 rfl rfl,
         H.2.2.2.2.2.2.2.2 (by decide) (by decide) (by decide) rfl⟩

/-! ## Accounts routes and secret redaction (claim C10) -/

/-- A JSON value as serialized in an account response body. -/
inductive JsonVal where
  | s (v : String)
  | optS (v : Option String)
  | b (v : Bool)
  deriving Repr, DecidableEq

/-- The serialized `whatsappAccount` object, every stored column included
(this is what Prisma hands the route before the destructuring). -/
def accountJson (a : WhatsappAccount) : List (String × JsonVal) :=
  [("id", .s a.id), ("tenantId", .s a.tenantId),
   ("deploymentType", .s a.deploymentType), ("channelType", .s a.channelType),
   ("wahaBaseUrl", .optS a.wahaBaseUrl), ("wahaApiKey", .optS a.wahaApiKey),
   ("internalWahaUrl", .optS a.internalWahaUrl),
   ("internalApiKey", .optS a.internalApiKey),
   ("accessToken", .optS a.accessToken), ("metaAppSecret", .optS a.metaAppSecret),
   ("businessName", .optS a.businessName), ("primaryPhone", .optS a.primaryPhone),
   ("isWebConnected", .b a.isWebConnected), ("status", .s a.status),
   ("errorMessage", .optS a.errorMessage)]

/-- The five keys both account routes strip:
`const { wahaApiKey, internalApiKey, accessToken, metaAppSecret,
internalWahaUrl, ...safeAccount } = account`. -/
def secretAccountKeys : List String :=
  ["wahaApiKey", "internalApiKey", "accessToken", "metaAppSecret", "internalWahaUrl"]

/-- The rest-destructured `safeAccount`: the account object minus exactly
the five secret keys. -/
def safeAccountJson (a : WhatsappAccount) : List (String × JsonVal) :=
  (accountJson a).filter (fun kv => !secretAccountKeys.contains kv.1)

/-- `GET /api/whatsapp/accounts`: the tenant's accounts, each mapped
through `safeAccountJson` (the `include`d relations add no account
columns). -/
def accountsListGET (store : Store) (tenant : String) : List (List (String × JsonVal)) :=
  (store.accounts.filter (fun a => a.tenantId == tenant)).map safeAccountJson

/-- The parsed `createWhatsappAccountSchema` body. -/
structure CreateAccountPayload where
  deploymentType : Option String := none
  channelType : String := "web"
  wahaBaseUrl : Option String := none
  wahaApiKey : Option String := none
  businessName : Option String := none
  primaryPhone : Option String := none
  deriving Repr, DecidableEq

/-- Response of the account-create route. -/
inductive AccountResp where
  | created (body : List (String × JsonVal))
  | failed (status : Nat) (msg : String)
  deriving Repr, DecidableEq

/-- The `whatsappAccount` row the create route writes. -/
def newWhatsappAccount (store : Store) (tenant : String) (p : CreateAccountPayload) :
    WhatsappAccount :=
  { id := "acct-" ++ toString store.accounts.length, tenantId := tenant,
    deploymentType := "self_hosted",
    channelType := if p.channelType = "" then "web" else p.channelType,
    wahaBaseUrl := if truthy p.wahaBaseUrl then p.wahaBaseUrl else none,
    wahaApiKey := if truthy p.wahaApiKey then p.wahaApiKey else none,
    businessName := if truthy p.businessName then p.businessName else none,
    primaryPhone := if truthy p.primaryPhone then p.primaryPhone else none,
    isWebConnected := true, status := "active" }

/-- The create-and-respond tail of the account-create route: account row
insert, audit write, and the 201 response carrying `safeAccount`. -/
def accountCreateWrite (store : Store) (tenant uid : String) (p : CreateAccountPayload)
    (auditOk : Bool) : AccountResp × Store :=
  if auditOk then
    (.created (safeAccountJson (newWhatsappAccount store tenant p)),
     { store with
         accounts := store.accounts ++ [newWhatsappAccount store tenant p],
         auditLog := store.auditLog ++
           [{ accountId := (newWhatsappAccount store tenant p).id,
              action := "account_create", status := "success",
              description := some ("Created WAHA account at " ++ jsOrS p.wahaBaseUrl ""),
              userId := some uid }] })
  else
    (.failed 500 "Failed to create WhatsApp account",
     { store with accounts := store.accounts ++ [newWhatsappAccount store tenant p] })

/-- `POST /api/whatsapp/accounts`: schema validation, the self-hosted
requirements (web channel, `wahaBaseUrl`, provider health check — passed
in as `healthOk`), the payaid-hosted redirect, then the create. -/
def accountCreatePOST (store : Store) (tenant uid : String) (p : CreateAccountPayload)
    (healthOk auditOk : Bool) : AccountResp × Store :=
  if (match p.deploymentType with
      | some v => decide (v ≠ "payaid_hosted" ∧ v ≠ "self_hosted")
      | none => false)
    || decide (p.channelType ≠ "web" ∧ p.channelType ≠ "cloud") then
    (.failed 400 "Validation error", store)
  else if jsOrS p.deploymentType "self_hosted" = "self_hosted" then
    if p.channelType ≠ "web" then (.failed 400 "Only web channel supported now", store) else
    if ¬ truthy p.wahaBaseUrl then
      (.failed 400 "wahaBaseUrl required for self-hosted deployment", store) else
    if ¬ healthOk then
      (.failed 400
        "Failed to connect to WAHA server. Please check the URL and API key.", store) else
    accountCreateWrite store tenant uid p auditOk
  else if jsOrS p.deploymentType "self_hosted" = "payaid_hosted" then
    (.failed 400
      "Please use the one-click setup at /dashboard/whatsapp/setup for automatic deployment",
     store)
  else
    accountCreateWrite store tenant uid p auditOk

/-- The rest-destructured object carries none of the five secret keys. -/
theorem safeAccountJson_no_secrets (a : WhatsappAccount) :
    (safeAccountJson a).all (fun kv => !secretAccountKeys.contains kv.1) = true := by
  rw [List.all_eq_true]
  intro kv hkv
  rw [safeAccountJson, List.mem_filter] at hkv
  exact hkv.2

/-- C10: neither the account list response nor the account create
response ever carries `wahaApiKey`, `internalApiKey`, `accessToken`,
`metaAppSecret` or `internalWahaUrl`, whatever the stored values. -/
theorem c10_secret_fields_redacted (store : Store) (tenant uid : String)
    (p : CreateAccountPayload) (healthOk auditOk : Bool) :
    ((accountsListGET store tenant).all
        (fun body => body.all (fun kv => !secretAccountKeys.contains kv.1)) = true)
    ∧ (∀ body s', accountCreatePOST store tenant uid p healthOk auditOk
          = (.created body, s') →
        body.all (fun kv => !secretAccountKeys.contains kv.1) = true) := by
  constructor
  · rw [List.all_eq_true]
    intro body hbody
    rw [accountsListGET, List.mem_map] at hbody
    obtain ⟨a, _, hEq⟩ := hbody
    subst hEq
    exact safeAccountJson_no_secrets a
  · intro body s' h
    unfold accountCreatePOST at h
    repeat' split at h
    all_goals try exact AccountResp.noConfusion (congrArg Prod.fst h)
    all_goals
      unfold accountCreateWrite at h
      split at h
      · injection h with h1 h2
        injection h1 with h1
        subst h1
        exact safeAccountJson_no_secrets _
      · exact AccountResp.noConfusion (congrArg Prod.fst h)

/-- Account fixture with every secret column populated. -/
def c10Account : WhatsappAccount :=
  { id := "a9", tenantId := "t9", wahaBaseUrl := some "http://waha9",
    wahaApiKey := some "sk-secret", internalApiKey := some "ik-secret",
    accessToken := some "tok-secret", metaAppSecret := some "mas-secret",
    internalWahaUrl := some "http://internal.waha" }

/-- Store holding the secret-laden account. -/
def c10Store : Store := { accounts := [c10Account] }

/-- Create payload carrying a provider key. -/
def c10Payload : CreateAccountPayload :=
  { wahaBaseUrl := some "http://waha.example", wahaApiKey := some "key-2" }

/-- The concrete create run for the witness. -/
def c10Run : AccountResp × Store := accountCreatePOST c10Store "t9" "u1" c10Payload true true

/-- The body the concrete create run answers with. -/
def c10Body : List (String × JsonVal) :=
  match c10Run.1 with
  | .created b => b
  | .failed _ _ => []

/-- Witness for `c10_secret_fields_redacted` on the concrete store and
create run. -/
theorem c10_secret_fields_redacted_witness :
    ((accountsListGET c10Store "t9").all
        (fun body => body.all (fun kv => !secretAccountKeys.contains kv.1)) = true)
    ∧ (c10Body.all (fun kv => !secretAccountKeys.contains kv.1) = true) :=
  ⟨(c10_secret_fields_redacted c10Store "t9" "u1" c10Payload true true).1,
   (c10_secret_fields_redacted c10Store "t9" "u1" c10Payload true true).2
     c10Body c10Run.2 rfl⟩

/-- A successful account-create tail with the audit insert failing keeps
the inserted account row but answers 500 instead of 201. -/
theorem accountCreateWrite_auditFail (store : Store) (tenant uid : String)
    (p : CreateAccountPayload) :
    ∀ body s1, accountCreateWrite store tenant uid p true = (.created body, s1) →
      accountCreateWrite store tenant uid p false
        = (.failed 500 "Failed to create WhatsApp account",
           { s1 with auditLog := store.auditLog }) := by
  intro body s1 h
  unfold accountCreateWrite at h ⊢
  injection h with h1 h2
  injection h1 with h1
  subst h1
  subst h2
  rfl

/-- C9 (amended): for each of the four audited operations — inbound
webhook, session create, send, account create — an audit-log write
failure does not roll back the operation's own state changes (the
resulting store is the successful run's store minus only the audit
entry), but it does fail the operation's response: the route answers its
outer catch's 500 error instead of the success response. -/
theorem c9_amended_audit_failure (store : Store) (instV : Option String)
    (dataV : Option MessageData) (now : Nat) (tenant uid : String)
    (spay : CreateSessionPayload) (qr : ProviderQrResult)
    (payload : SendPayload) (provider : ProviderSendResult)
    (p : CreateAccountPayload) (healthOk : Bool) :
    (∀ s1, messageWebhookPOST store instV dataV now true = (.ok 200, s1) →
        messageWebhookPOST store instV dataV now false
          = (.error 500 "Webhook processing failed",
             { s1 with auditLog := store.auditLog }))
    ∧ (∀ sess s1, sessionCreatePOST store tenant uid spay qr now true
          = (.created sess, s1) →
        sessionCreatePOST store tenant uid spay qr now false
          = (.failed 500 "Failed to create session",
             { s1 with auditLog := store.auditLog }))
    ∧ (∀ m s1, sendMessagePOST store tenant uid payload provider now true
          = (.created m, s1) →
        sendMessagePOST store tenant uid payload provider now false
          = (.failed 500 "Failed to send message",
             { s1 with auditLog := store.auditLog }))
    ∧ (∀ body s1, accountCreatePOST store tenant uid p healthOk true
          = (.created body, s1) →
        accountCreatePOST store tenant uid p healthOk false
          = (.failed 500 "Failed to create WhatsApp account",
             { s1 with auditLog := store.auditLog })) := by
  refine ⟨?_, ?_, ?_, ?_⟩
  · intro s1 h
    unfold messageWebhookPOST at h ⊢
    rcases hcore : messageWebhookCore store instV dataV now with ⟨st, msg, s⟩ | ⟨sess, fn, s6⟩
    · rw [hcore] at h
      injection h with h1 h2
      exact ApiResp.noConfusion h1
    · rw [hcore] at h
      have hL := (messageWebhookCore_auditLog store instV dataV now).1 _ _ _ hcore
      injection h with h1 h2
      subst h2
      show (ApiResp.error 500 "Webhook processing failed", s6)
        = (ApiResp.error 500 "Webhook processing failed",
           { s6 with auditLog := store.auditLog })
      rw [← hL]
  · intro sess s1 h
    unfold sessionCreatePOST at h ⊢
    repeat' split at h
    all_goals simp_all
    all_goals
      obtain ⟨h1, h2⟩ := h
      subst h1
      subst h2
      exact ⟨rfl, rfl, rfl, rfl, rfl, rfl, rfl⟩
  · intro m s1 h
    unfold sendMessagePOST at h ⊢
    rcases heqPrep : sendPrep store tenant payload with e | prep
    · rw [heqPrep] at h
      exact SendResp.noConfusion (congrArg Prod.fst h)
    · rw [heqPrep] at h
      injection h with h1 h2
      injection h1 with h1
      subst h1
      subst h2
      rfl
  · intro body s1 h
    unfold accountCreatePOST at h ⊢
    split at h
    · exact AccountResp.noConfusion (congrArg Prod.fst h)
    · split at h
      · split at h
        · exact AccountResp.noConfusion (congrArg Prod.fst h)
        · split at h
          · exact AccountResp.noConfusion (congrArg Prod.fst h)
          · split at h
            · exact AccountResp.noConfusion (congrArg Prod.fst h)
            · rw [if_neg (by assumption), if_pos (by assumption),
                  if_neg (by assumption), if_neg (by assumption),
                  if_neg (by assumption)]
              exact accountCreateWrite_auditFail store tenant uid p body s1 h
      · split at h
        · exact AccountResp.noConfusion (congrArg Prod.fst h)
        · rw [if_neg (by assumption), if_neg (by assumption),
              if_neg (by assumption)]
          exact accountCreateWrite_auditFail store tenant uid p body s1 h

/-- Empty store used for the account-create part of the C9 witness. -/
def c9AcctStore : Store := {}

/-- Witness for `c9_amended_audit_failure`: concrete webhook,
session-create, send and account-create runs with the audit insert
failing. -/
theorem c9_amended_audit_failure_witness :
    messageWebhookPOST c7Store0 (some "waha-1") (some c7Data) 1000 false
      = (.error 500 "Webhook processing failed",
         { (messageWebhookPOST c7Store0 (some "waha-1") (some c7Data) 1000 true).2 with
             auditLog := c7Store0.auditLog })
    ∧ sessionCreatePOST fixStore "t1" "u1" { accountId := "a1" }
        (.ok (some "qr-img") none) 123 false
      = (.failed 500 "Failed to create session",
         { (sessionCreatePOST fixStore "t1" "u1" { accountId := "a1" }
              (.ok (some "qr-img") none) 123 true).2 with
             auditLog := fixStore.auditLog })
    ∧ sendMessagePOST fixStore "t1" "u1" { conversationId := "cv1", text := some "hello" }
        (.ok (some "wm-99") none) 9 false
      = (.failed 500 "Failed to send message",
         { (sendMessagePOST fixStore "t1" "u1"
              { conversationId := "cv1", text := some "hello" }
              (.ok (some "wm-99") none) 9 true).2 with
             auditLog := fixStore.auditLog })
    ∧ accountCreatePOST c9AcctStore "t9" "u9" { wahaBaseUrl := some "http://w9" } true false
      = (.failed 500 "Failed to create WhatsApp account",
         { (accountCreatePOST c9AcctStore "t9" "u9" { wahaBaseUrl := some "http://w9" }
              true true).2 with
             auditLog := c9AcctStore.auditLog }) :=
  ⟨(c9_amended_audit_failure c7Store0 (some "waha-1") (some c7Data) 1000 "t" "u"
      { accountId := "a1" } (.ok none none) { conversationId := "x" } (.ok none none)
      {} true).1 _ rfl,
   (c9_amended_audit_failure fixStore (some "x") none 123 "t1" "u1"
      { accountId := "a1" } (.ok (some "qr-img") none) { conversationId := "x" }
      (.ok none none) {} true).2.1 _ _ rfl,
   (c9_amended_audit_failure fixStore (some "x") none 9 "t1" "u1"
      { accountId := "a1" } (.ok none none)
      { conversationId := "cv1", text := some "hello" } (.ok (some "wm-99") none)
      {} true).2.2.1 _ _ rfl,
   (c9_amended_audit_failure c9AcctStore (some "x") none 7 "t9" "u9"
      { accountId := "a1" } (.ok none none) { conversationId := "x" } (.ok none none)
      { wahaBaseUrl := some "http://w9" } true).2.2.2 _ _ rfl⟩

end PayAidWA
